import Mathlib

/-!
Verification of the ElectyrolyisWebApp frontend (React/TypeScript) and of the
job-lifecycle orchestration layer described in its specification.

Pure functions of the frontend are embedded directly from the TypeScript
source (src/frontend/src/types/index.ts, utils/elements, the SimulationPage
handlers, the MoleculeBuilder handlers, the two refetchInterval closures).
The backend Job Manager is not part of the shipped sources; where a claim is
about it, the definitions are modelled from the specification and say so in
their doc comments.
-/

namespace Spec2Proof

/-- Element record, from the Element interface in types/index.ts. -/
structure Element where
  symbol : String
  name : String
  atomic_number : Nat
deriving DecidableEq, Repr

/-- The full periodic table, from ALL_ELEMENTS in utils/elements (Z 1-118). -/
def ALL_ELEMENTS : List Element := [
  Element.mk "H" "Hydrogen" 1, Element.mk "He" "Helium" 2, Element.mk "Li" "Lithium" 3,
  Element.mk "Be" "Beryllium" 4, Element.mk "B" "Boron" 5, Element.mk "C" "Carbon" 6,
  Element.mk "N" "Nitrogen" 7, Element.mk "O" "Oxygen" 8, Element.mk "F" "Fluorine" 9,
  Element.mk "Ne" "Neon" 10, Element.mk "Na" "Sodium" 11, Element.mk "Mg" "Magnesium" 12,
  Element.mk "Al" "Aluminum" 13, Element.mk "Si" "Silicon" 14, Element.mk "P" "Phosphorus" 15,
  Element.mk "S" "Sulfur" 16, Element.mk "Cl" "Chlorine" 17, Element.mk "Ar" "Argon" 18,
  Element.mk "K" "Potassium" 19, Element.mk "Ca" "Calcium" 20, Element.mk "Sc" "Scandium" 21,
  Element.mk "Ti" "Titanium" 22, Element.mk "V" "Vanadium" 23, Element.mk "Cr" "Chromium" 24,
  Element.mk "Mn" "Manganese" 25, Element.mk "Fe" "Iron" 26, Element.mk "Co" "Cobalt" 27,
  Element.mk "Ni" "Nickel" 28, Element.mk "Cu" "Copper" 29, Element.mk "Zn" "Zinc" 30,
  Element.mk "Ga" "Gallium" 31, Element.mk "Ge" "Germanium" 32, Element.mk "As" "Arsenic" 33,
  Element.mk "Se" "Selenium" 34, Element.mk "Br" "Bromine" 35, Element.mk "Kr" "Krypton" 36,
  Element.mk "Rb" "Rubidium" 37, Element.mk "Sr" "Strontium" 38, Element.mk "Y" "Yttrium" 39,
  Element.mk "Zr" "Zirconium" 40, Element.mk "Nb" "Niobium" 41, Element.mk "Mo" "Molybdenum" 42,
  Element.mk "Tc" "Technetium" 43, Element.mk "Ru" "Ruthenium" 44, Element.mk "Rh" "Rhodium" 45,
  Element.mk "Pd" "Palladium" 46, Element.mk "Ag" "Silver" 47, Element.mk "Cd" "Cadmium" 48,
  Element.mk "In" "Indium" 49, Element.mk "Sn" "Tin" 50, Element.mk "Sb" "Antimony" 51,
  Element.mk "Te" "Tellurium" 52, Element.mk "I" "Iodine" 53, Element.mk "Xe" "Xenon" 54,
  Element.mk "Cs" "Cesium" 55, Element.mk "Ba" "Barium" 56, Element.mk "La" "Lanthanum" 57,
  Element.mk "Ce" "Cerium" 58, Element.mk "Pr" "Praseodymium" 59, Element.mk "Nd" "Neodymium" 60,
  Element.mk "Pm" "Promethium" 61, Element.mk "Sm" "Samarium" 62, Element.mk "Eu" "Europium" 63,
  Element.mk "Gd" "Gadolinium" 64, Element.mk "Tb" "Terbium" 65, Element.mk "Dy" "Dysprosium" 66,
  Element.mk "Ho" "Holmium" 67, Element.mk "Er" "Erbium" 68, Element.mk "Tm" "Thulium" 69,
  Element.mk "Yb" "Ytterbium" 70, Element.mk "Lu" "Lutetium" 71, Element.mk "Hf" "Hafnium" 72,
  Element.mk "Ta" "Tantalum" 73, Element.mk "W" "Tungsten" 74, Element.mk "Re" "Rhenium" 75,
  Element.mk "Os" "Osmium" 76, Element.mk "Ir" "Iridium" 77, Element.mk "Pt" "Platinum" 78,
  Element.mk "Au" "Gold" 79, Element.mk "Hg" "Mercury" 80, Element.mk "Tl" "Thallium" 81,
  Element.mk "Pb" "Lead" 82, Element.mk "Bi" "Bismuth" 83, Element.mk "Po" "Polonium" 84,
  Element.mk "At" "Astatine" 85, Element.mk "Rn" "Radon" 86, Element.mk "Fr" "Francium" 87,
  Element.mk "Ra" "Radium" 88, Element.mk "Ac" "Actinium" 89, Element.mk "Th" "Thorium" 90,
  Element.mk "Pa" "Protactinium" 91, Element.mk "U" "Uranium" 92, Element.mk "Np" "Neptunium" 93,
  Element.mk "Pu" "Plutonium" 94, Element.mk "Am" "Americium" 95, Element.mk "Cm" "Curium" 96,
  Element.mk "Bk" "Berkelium" 97, Element.mk "Cf" "Californium" 98, Element.mk "Es" "Einsteinium" 99,
  Element.mk "Fm" "Fermium" 100, Element.mk "Md" "Mendelevium" 101, Element.mk "No" "Nobelium" 102,
  Element.mk "Lr" "Lawrencium" 103, Element.mk "Rf" "Rutherfordium" 104, Element.mk "Db" "Dubnium" 105,
  Element.mk "Sg" "Seaborgium" 106, Element.mk "Bh" "Bohrium" 107, Element.mk "Hs" "Hassium" 108,
  Element.mk "Mt" "Meitnerium" 109, Element.mk "Ds" "Darmstadtium" 110, Element.mk "Rg" "Roentgenium" 111,
  Element.mk "Cn" "Copernicium" 112, Element.mk "Nh" "Nihonium" 113, Element.mk "Fl" "Flerovium" 114,
  Element.mk "Mc" "Moscovium" 115, Element.mk "Lv" "Livermorium" 116, Element.mk "Ts" "Tennessine" 117,
  Element.mk "Og" "Oganesson" 118]

/-- Basis-set supported atomic-number ranges, from BASIS_SET_RANGES in
utils/elements (each range is inclusive on both ends). -/
def BASIS_SET_RANGES : List (String × List (Nat × Nat)) := [
  ("sto-3g", [(1, 54)]),
  ("sto-6g", [(1, 54)]),
  ("3-21g", [(1, 55)]),
  ("6-31g", [(1, 36)]),
  ("6-31g*", [(1, 36)]),
  ("cc-pvdz", [(1, 18), (20, 36)]),
  ("cc-pvtz", [(1, 18), (20, 36)]),
  ("def2-svp", [(1, 86)]),
  ("def2-tzvp", [(1, 86)]),
  ("dyall-ae4z", [(1, 118)])]

/-- ASCII lowercasing of a string, embedding the call
basisSet.toLowerCase() (the basis-set keys are ASCII). -/
def toLowerCase (s : String) : String := String.mk (s.data.map Char.toLower)

/-- Lookup of BASIS_SET_RANGES at a key (the JS record indexing). -/
def lookupRanges (key : String) : Option (List (Nat × Nat)) :=
  (BASIS_SET_RANGES.find? (fun p => p.1 == key)).map Prod.snd

/-- The inclusive range lo..hi as a list, embedding the JS loop
for (let z = lo; z <= hi; z++). -/
def rangeZ (lo hi : Nat) : List Nat := List.range' lo (hi + 1 - lo)

/-- supportedZSet from utils/elements: the supported atomic numbers of a
basis set, with the fallback to all of ALL_ELEMENTS for an unknown key.
The JS Set is represented by the list of its members. -/
def supportedZSet (basisSet : String) : List Nat :=
  match lookupRanges (toLowerCase basisSet) with
  | none => ALL_ELEMENTS.map (fun e => e.atomic_number)
  | some ranges => ranges.flatMap (fun p => rangeZ p.1 p.2)

/-- getElementsForBasisSet from utils/elements. -/
def getElementsForBasisSet (basisSet : String) : List Element :=
  ALL_ELEMENTS.filter (fun e => (supportedZSet basisSet).contains e.atomic_number)

/-- isElementSupported from utils/elements. -/
def isElementSupported (symbol : String) (basisSet : String) : Bool :=
  match ALL_ELEMENTS.find? (fun e => e.symbol == symbol) with
  | none => false
  | some el => (supportedZSet basisSet).contains el.atomic_number

/-- Atom record, from the Atom interface in types/index.ts. Coordinates are
JS numbers used only as opaque data by the handlers verified here; they are
embedded as rationals. -/
structure Atom where
  symbol : String
  position : Rat × Rat × Rat
deriving DecidableEq, Repr

/-- Molecule record, from the Molecule interface in types/index.ts. -/
structure Molecule where
  name : String
  atoms : List Atom
  charge : Int
  multiplicity : Int
  basis_set : String
deriving DecidableEq, Repr

/-- DEFAULT_ATOM from MoleculeBuilder.tsx. -/
def DEFAULT_ATOM : Atom := Atom.mk "H" (0, 0, 0)

/-- handleAddAtom from MoleculeBuilder.tsx: appends a copy of DEFAULT_ATOM. -/
def handleAddAtom (m : Molecule) : Molecule :=
  { m with atoms := m.atoms ++ [DEFAULT_ATOM] }

/-- handleRemoveAtom from MoleculeBuilder.tsx: atoms.filter((_, i) => i !== index). -/
def handleRemoveAtom (m : Molecule) (index : Nat) : Molecule :=
  { m with atoms := (m.atoms.enum.filter (fun p => p.1 != index)).map Prod.snd }

/-- The canRemove prop passed to each AtomInput in MoleculeBuilder.tsx:
molecule.atoms.length > 1. -/
def canRemove (m : Molecule) : Bool := m.atoms.length > 1

/-- One user action on the molecule builder TUI affecting the atoms list:
the Add Atom button, or one atom row's remove button (which AtomInput.tsx
renders with disabled = not canRemove, so it only fires when canRemove). -/
inductive BuilderOp where
  | addAtom
  | removeAtom (index : Nat)
deriving DecidableEq, Repr

/-- The effect of one builder action on the molecule: add always appends;
remove fires only when the button is enabled (canRemove). -/
def applyOp (m : Molecule) (op : BuilderOp) : Molecule :=
  match op with
  | BuilderOp.addAtom => handleAddAtom m
  | BuilderOp.removeAtom i => if canRemove m then handleRemoveAtom m i else m

/-- A sequence of builder actions applied in order. -/
def applyOps (m : Molecule) (ops : List BuilderOp) : Molecule := ops.foldl applyOp m

/-- Simulation method, from the literal union type in types/index.ts. -/
inductive Method where
  | vqe
  | sqd
deriving DecidableEq, Repr

/-- VQEConfig from types/index.ts. -/
structure VQEConfig where
  step_size : Rat
  num_steps : Int
  convergence_threshold : Option Rat
deriving DecidableEq, Repr

/-- SQDConfig from types/index.ts. -/
structure SQDConfig where
  samples_per_batch : Int
  max_iterations : Int
  num_batches : Int
  num_shots : Int
  use_hardware : Bool
  ibm_api_key : Option String
deriving DecidableEq, Repr

/-- ValidationResponse from types/index.ts (the fields read by the page). -/
structure ValidationResponse where
  valid : Bool
  molecule_name : String
  num_atoms : Nat
  num_electrons : Nat
  num_qubits_required : Nat
  warnings : List String
  recommended_method : Method
deriving DecidableEq, Repr

/-- The step state of SimulationPage.tsx: 'build' | 'config' | 'running'. -/
inductive PageStep where
  | build
  | config
  | running
deriving DecidableEq, Repr

/-- The useState cells of SimulationPage.tsx that the handlers touch. -/
structure PageState where
  molecule : Molecule
  method : Method
  vqeConfig : VQEConfig
  sqdConfig : SQDConfig
  step : PageStep
deriving DecidableEq, Repr

/-- DEFAULT_MOLECULE from SimulationPage.tsx. -/
def DEFAULT_MOLECULE : Molecule :=
  Molecule.mk "" [Atom.mk "H" (0, 0, -0.69), Atom.mk "H" (0, 0, 0.69)] 0 1 "sto-3g"

/-- DEFAULT_VQE_CONFIG from SimulationPage.tsx. -/
def DEFAULT_VQE_CONFIG : VQEConfig := VQEConfig.mk 0.2 200 none

/-- DEFAULT_SQD_CONFIG from SimulationPage.tsx. -/
def DEFAULT_SQD_CONFIG : SQDConfig := SQDConfig.mk 500 100 5 10000 false none

/-- handleValidate from SimulationPage.tsx, given the validation response the
backend returned: when valid, advance to the config step and auto-select the
recommended method; otherwise leave all state unchanged. -/
def handleValidate (st : PageState) (result : ValidationResponse) : PageState :=
  if result.valid then
    { st with step := PageStep.config, method := result.recommended_method }
  else st

/-- The onMethodChange callback the page passes to SimulationConfig
(setMethod): the user freely selects vqe or sqd. -/
def onMethodChange (st : PageState) (m : Method) : PageState := { st with method := m }

/-- SimulationRequest from types/index.ts. -/
structure SimulationRequest where
  molecule : Molecule
  method : Method
  vqe_config : Option VQEConfig
  sqd_config : Option SQDConfig
deriving DecidableEq, Repr

/-- handleSubmit from SimulationPage.tsx: builds the request from the
currently selected method (no check against the recommendation) and moves to
the running step. -/
def handleSubmit (st : PageState) : SimulationRequest × PageState :=
  (SimulationRequest.mk st.molecule st.method
      (if st.method = Method.vqe then some st.vqeConfig else none)
      (if st.method = Method.sqd then some st.sqdConfig else none),
   { st with step := PageStep.running })

/-- Modelled from the spec: the backend Validator's method recommendation is
not under src/; section 4.1 recommends vqe below a qubit threshold (at most
16) and sqd above it. -/
def recommendedMethod (numQubits : Nat) : Method :=
  if numQubits ≤ 16 then Method.vqe else Method.sqd

/-- Job status, from the JobStatus union type in types/index.ts. -/
inductive JobStatus where
  | pending
  | running
  | completed
  | failed
  | cancelled
deriving DecidableEq, Repr

/-- Job record, from the Job interface in types/index.ts (the fields the
polling closures read). -/
structure Job where
  id : String
  status : JobStatus
  method : String
  molecule_name : String
  created_at : String
  progress : Int
  current_step : String
deriving DecidableEq, Repr

/-- The refetchInterval closure of the JobStatus component (components/
simulation/JobStatus.tsx): stop polling (false, here none) when the fetched
job's status is completed, failed or cancelled; else poll every 2000 ms. -/
def jobStatusRefetchInterval (job : Option Job) : Option Nat :=
  if job.map Job.status = some JobStatus.completed ∨
     job.map Job.status = some JobStatus.failed ∨
     job.map Job.status = some JobStatus.cancelled then none
  else some 2000

/-- The refetchInterval closure of the currentJob query in useSimulation.ts:
stop polling only when the status is completed or failed; else poll every
2000 ms. -/
def currentJobRefetchInterval (job : Option Job) : Option Nat :=
  if job.map Job.status = some JobStatus.completed ∨
     job.map Job.status = some JobStatus.failed then none
  else some 2000

/-- A status is terminal when it is completed, failed or cancelled
(spec, section 4.4 and glossary). -/
def isTerminal (s : JobStatus) : Bool :=
  match s with
  | JobStatus.completed => true
  | JobStatus.failed => true
  | JobStatus.cancelled => true
  | _ => false

/-- Modelled from the spec: the backend JobRecord (section 3) is not under
src/ (the repository ships only the frontend); fields as listed there, with
timestamps as naturals and energies as rationals. -/
structure JobRecord where
  id : Nat
  method : Method
  molecule_snapshot : Molecule
  vqe_config : Option VQEConfig
  sqd_config : Option SQDConfig
  status : JobStatus
  progress : Nat
  current_step : String
  cancellation_requested : Bool
  created_at : Nat
  started_at : Option Nat
  completed_at : Option Nat
  result_energy : Option Rat
  energy_history : Option (List Rat)
  error_message : Option String
deriving DecidableEq, Repr

/-- Modelled from the spec: Job Manager Cancel (section 4.3), not under src/:
a no-op if the job is already terminal; otherwise sets
cancellation_requested, and if the job is still pending transitions it
directly to cancelled (a terminal transition also sets completed_at). -/
def cancelJob (j : JobRecord) (t : Nat) : JobRecord :=
  if isTerminal j.status then j
  else if j.status = JobStatus.pending then
    { j with status := JobStatus.cancelled, cancellation_requested := true,
             completed_at := some t }
  else { j with cancellation_requested := true }

/-- An event acting on one job: the worker picking up the unit, a client
Cancel, and the Dispatcher callbacks (spec, sections 4.2 to 4.4). -/
inductive JMEvent where
  | pickUp (t : Nat)
  | cancel (t : Nat)
  | progressCb (pct : Nat) (stepName : String)
  | completeCb (t : Nat) (energy : Rat) (history : List Rat)
  | failCb (t : Nat) (msg : String)
  | cancelObserved (t : Nat)
deriving DecidableEq, Repr

/-- Modelled from the spec: the Job Manager's per-job transition function,
not under src/; the transition table of section 4.4, with any transition
attempted from a terminal state a no-op (never an error), progress applied
only while running and kept in 0..100 and non-decreasing (section 3), and
started_at and completed_at set on entering running and terminal states. -/
def applyEvent (j : JobRecord) (e : JMEvent) : JobRecord :=
  if isTerminal j.status then j
  else match e with
  | JMEvent.pickUp t =>
      if j.status = JobStatus.pending then
        { j with status := JobStatus.running, started_at := some t }
      else j
  | JMEvent.cancel t => cancelJob j t
  | JMEvent.progressCb pct stepName =>
      if j.status = JobStatus.running then
        { j with progress := max j.progress (min pct 100), current_step := stepName }
      else j
  | JMEvent.completeCb t en hist =>
      if j.status = JobStatus.running then
        { j with status := JobStatus.completed, completed_at := some t,
                 result_energy := some en, energy_history := some hist }
      else j
  | JMEvent.failCb t msg =>
      if j.status = JobStatus.running then
        { j with status := JobStatus.failed, completed_at := some t,
                 error_message := some msg }
      else j
  | JMEvent.cancelObserved t =>
      if j.status = JobStatus.running ∧ j.cancellation_requested = true then
        { j with status := JobStatus.cancelled, completed_at := some t }
      else j

/-- A sequence of events applied to one job in order. -/
def runTrace (j : JobRecord) (es : List JMEvent) : JobRecord := es.foldl applyEvent j

/-- The edges of the state machine of spec section 4.4, plus staying put
(an event that causes no transition). -/
def AllowedEdge (s s' : JobStatus) : Prop :=
  s' = s ∨
  (s = JobStatus.pending ∧ s' = JobStatus.running) ∨
  (s = JobStatus.pending ∧ s' = JobStatus.cancelled) ∨
  (s = JobStatus.running ∧
    (s' = JobStatus.completed ∨ s' = JobStatus.failed ∨ s' = JobStatus.cancelled))

/-- Modelled from the spec: the backend Validator (section 4.1), not under
src/, never raises for a malformed atom and instead reports invalid; its
element check mirrors the UI-side isElementSupported check. -/
def validMolecule (m : Molecule) : Bool :=
  m.atoms.all (fun a => isElementSupported a.symbol m.basis_set)

/-- The Job Record Store: the next fresh id and the records keyed by id
(spec, sections 2 and 3). -/
structure JobStore where
  nextId : Nat
  jobs : List (Nat × JobRecord)
deriving DecidableEq, Repr

/-- The outcome of Submit: a job id, or a ValidationError (spec section 7). -/
inductive SubmitOutcome where
  | ok (jobId : Nat)
  | validationError
deriving DecidableEq, Repr

/-- A freshly created record: status pending, progress 0, no result fields
(spec, sections 3 and 4.3). -/
def freshJob (id : Nat) (m : Molecule) (meth : Method)
    (vc : Option VQEConfig) (sc : Option SQDConfig) (t : Nat) : JobRecord :=
  JobRecord.mk id meth m vc sc JobStatus.pending 0 "" false t none none none none none

/-- Modelled from the spec: Job Manager Submit (section 4.3), not under
src/: runs the Validator; if invalid, fails with ValidationError and creates
no record; otherwise creates a JobRecord with status pending. -/
def submitJM (st : JobStore) (m : Molecule) (meth : Method)
    (vc : Option VQEConfig) (sc : Option SQDConfig) (t : Nat) :
    SubmitOutcome × JobStore :=
  if validMolecule m then
    (SubmitOutcome.ok st.nextId,
     JobStore.mk (st.nextId + 1) ((st.nextId, freshJob st.nextId m meth vc sc t) :: st.jobs))
  else (SubmitOutcome.validationError, st)

/-- A concrete completed job record, used to exercise the terminal no-op. -/
def sampleTerminalJob : JobRecord :=
  { freshJob 3 DEFAULT_MOLECULE Method.sqd none (some DEFAULT_SQD_CONFIG) 5 with
      status := JobStatus.completed, progress := 100 }

/-- A concrete running job record at 40 percent progress. -/
def sampleRunningJob : JobRecord :=
  { freshJob 2 DEFAULT_MOLECULE Method.vqe (some DEFAULT_VQE_CONFIG) none 1 with
      status := JobStatus.running, progress := 40, started_at := some 2 }

end Spec2Proof

namespace Spec2Proof

/-- Claim C1: for the basis sets cc-pvdz and cc-pvtz, whose supported
atomic-number ranges are [1,18] and [20,36], the atom with atomic number 19
(potassium, symbol K) is reported invalid by isElementSupported, while Ar
(Z 18) and Ca (Z 20) are reported valid. -/
theorem ccpvdz_ccpvtz_boundary :
    isElementSupported "K" "cc-pvdz" = false ∧
    isElementSupported "K" "cc-pvtz" = false ∧
    isElementSupported "Ar" "cc-pvdz" = true ∧
    isElementSupported "Ar" "cc-pvtz" = true ∧
    isElementSupported "Ca" "cc-pvdz" = true ∧
    isElementSupported "Ca" "cc-pvtz" = true := by
  decide

/-- Claim C2: validation of an atom is total: isElementSupported is a total
function into Bool, and for every symbol that does not occur in ALL_ELEMENTS
it returns false (rather than throwing), for every basis-set string. -/
theorem isElementSupported_unknown_symbol_false (symbol basisSet : String)
    (h : ALL_ELEMENTS.find? (fun e => e.symbol == symbol) = none) :
    isElementSupported symbol basisSet = false := by
  unfold isElementSupported
  rw [h]

/-- Witness for claim C2 at the concrete unknown symbol Xx. -/
theorem isElementSupported_unknown_symbol_false_witness :
    ALL_ELEMENTS.find? (fun e => e.symbol == "Xx") = none ∧
    isElementSupported "Xx" "sto-3g" = false :=
  ⟨by decide, isElementSupported_unknown_symbol_false "Xx" "sto-3g" (by decide)⟩

/-- Every element of ALL_ELEMENTS has its atomic number in the list of all
atomic numbers, stated through the Bool-valued contains used by the code. -/
theorem contains_atomic_number_of_mem {e : Element} (he : e ∈ ALL_ELEMENTS) :
    (ALL_ELEMENTS.map (fun x => x.atomic_number)).contains e.atomic_number = true := by
  have hmem : e.atomic_number ∈ ALL_ELEMENTS.map (fun x => x.atomic_number) :=
    List.mem_map_of_mem _ he
  exact List.elem_eq_true_of_mem hmem

/-- Claim C8: for a basis-set string whose lowercased form is not a key of
BASIS_SET_RANGES, supportedZSet falls back to the atomic numbers of all 118
elements, getElementsForBasisSet returns all of ALL_ELEMENTS, and
isElementSupported accepts every symbol occurring in ALL_ELEMENTS. -/
theorem unknown_basis_set_fallback (basisSet : String)
    (h : lookupRanges (toLowerCase basisSet) = none) :
    supportedZSet basisSet = ALL_ELEMENTS.map (fun e => e.atomic_number) ∧
    getElementsForBasisSet basisSet = ALL_ELEMENTS ∧
    ∀ e ∈ ALL_ELEMENTS, isElementSupported e.symbol basisSet = true := by
  have hset : supportedZSet basisSet = ALL_ELEMENTS.map (fun e => e.atomic_number) := by
    unfold supportedZSet
    rw [h]
  have hcontains : ∀ e ∈ ALL_ELEMENTS,
      (supportedZSet basisSet).contains e.atomic_number = true := by
    intro e he
    rw [hset]
    exact contains_atomic_number_of_mem he
  refine ⟨hset, ?_, ?_⟩
  · unfold getElementsForBasisSet
    exact List.filter_eq_self.mpr hcontains
  · intro e he
    unfold isElementSupported
    cases hfind : ALL_ELEMENTS.find? (fun x => x.symbol == e.symbol) with
    | none =>
        exfalso
        have := List.find?_eq_none.mp hfind e he
        simp at this
    | some r =>
        exact hcontains r (List.mem_of_find?_eq_some hfind)

/-- Witness for claim C8 at the concrete unrecognized basis set 6-311g and
the concrete element Og. -/
theorem unknown_basis_set_fallback_witness :
    lookupRanges (toLowerCase "6-311g") = none ∧
    supportedZSet "6-311g" = ALL_ELEMENTS.map (fun e => e.atomic_number) ∧
    getElementsForBasisSet "6-311g" = ALL_ELEMENTS ∧
    isElementSupported "Og" "6-311g" = true :=
  ⟨by decide,
   (unknown_basis_set_fallback "6-311g" (by decide)).1,
   (unknown_basis_set_fallback "6-311g" (by decide)).2.1,
   (unknown_basis_set_fallback "6-311g" (by decide)).2.2
     (Element.mk "Og" "Oganesson" 118) (by decide)⟩

/-- Claim C9: the two polling paths stop on different status sets: the
JobStatus component's refetchInterval returns false (none) exactly when the
fetched job's status is completed, failed or cancelled, and 2000 otherwise;
the currentJob refetchInterval in useSimulation returns false only for
completed or failed, and for a cancelled job returns 2000, so that job keeps
being polled every 2 seconds. -/
theorem polling_paths_differ (job : Option Job) :
    (jobStatusRefetchInterval job = none ↔
      (job.map Job.status = some JobStatus.completed ∨
       job.map Job.status = some JobStatus.failed ∨
       job.map Job.status = some JobStatus.cancelled)) ∧
    (jobStatusRefetchInterval job = none ∨ jobStatusRefetchInterval job = some 2000) ∧
    (currentJobRefetchInterval job = none ↔
      (job.map Job.status = some JobStatus.completed ∨
       job.map Job.status = some JobStatus.failed)) ∧
    (job.map Job.status = some JobStatus.cancelled →
      currentJobRefetchInterval job = some 2000) := by
  unfold jobStatusRefetchInterval currentJobRefetchInterval
  refine ⟨?_, ?_, ?_, ?_⟩
  · split <;> simp_all
  · split <;> simp
  · split <;> simp_all
  · intro h
    split
    · rcases ‹_ ∨ _› with h1 | h1 <;> simp_all
    · rfl

/-- Witness for claim C9 at a concrete cancelled job. -/
theorem polling_paths_differ_witness :
    jobStatusRefetchInterval (some (Job.mk "j1" JobStatus.cancelled "vqe" "H2" "t0" 100 "s")) = none ∧
    currentJobRefetchInterval (some (Job.mk "j1" JobStatus.cancelled "vqe" "H2" "t0" 100 "s")) = some 2000 :=
  ⟨(polling_paths_differ _).1.mpr (Or.inr (Or.inr rfl)),
   (polling_paths_differ _).2.2.2 rfl⟩

/-- Claim C3: the recommended method is advisory only and is not enforced at
submission: validation auto-selects the recommended method, the user may then
change the method to any value, and handleSubmit submits whichever method is
currently selected, with no check against the recommendation; the
spec-modelled recommendation is vqe at or below 16 qubits and sqd above. -/
theorem recommended_method_advisory (st : PageState) (result : ValidationResponse)
    (m : Method) :
    (result.valid = true → (handleValidate st result).method = result.recommended_method) ∧
    (handleSubmit (onMethodChange (handleValidate st result) m)).1.method = m ∧
    recommendedMethod 16 = Method.vqe ∧ recommendedMethod 17 = Method.sqd := by
  refine ⟨?_, rfl, by decide, by decide⟩
  intro hv
  unfold handleValidate
  rw [hv]
  simp

/-- Witness for claim C3: the validator recommends vqe, the user switches to
sqd, and the submitted request carries sqd. -/
theorem recommended_method_advisory_witness :
    (handleValidate
        (PageState.mk DEFAULT_MOLECULE Method.vqe DEFAULT_VQE_CONFIG DEFAULT_SQD_CONFIG PageStep.build)
        (ValidationResponse.mk true "H2" 2 2 4 [] Method.vqe)).method = Method.vqe ∧
    (handleSubmit (onMethodChange
        (handleValidate
          (PageState.mk DEFAULT_MOLECULE Method.vqe DEFAULT_VQE_CONFIG DEFAULT_SQD_CONFIG PageStep.build)
          (ValidationResponse.mk true "H2" 2 2 4 [] Method.vqe))
        Method.sqd)).1.method = Method.sqd :=
  ⟨(recommended_method_advisory _ (ValidationResponse.mk true "H2" 2 2 4 [] Method.vqe) Method.sqd).1 rfl,
   (recommended_method_advisory _ (ValidationResponse.mk true "H2" 2 2 4 [] Method.vqe) Method.sqd).2.1⟩

/-- Claim C4: Cancel is idempotent: cancelling a job that is already terminal
is a no-op, so for every job record (and any pair of cancellation times)
cancelling twice produces the same end state as cancelling once. -/
theorem cancel_idempotent (j : JobRecord) (t1 t2 : Nat) :
    cancelJob (cancelJob j t1) t2 = cancelJob j t1 := by
  unfold cancelJob
  cases hs : j.status <;> simp [isTerminal, hs]

/-- Claim C5: submission with an invalid molecule fails with ValidationError
and creates no JobRecord (the store is returned unchanged); on the client
side, a failed validation leaves the page state unchanged, and from the build
step the flow advances to the config step exactly when the validation result
is valid. -/
theorem invalid_submit_creates_no_record (st : JobStore) (m : Molecule)
    (meth : Method) (vc : Option VQEConfig) (sc : Option SQDConfig) (t : Nat)
    (pg : PageState) (result : ValidationResponse)
    (h : validMolecule m = false) (hr : result.valid = false) :
    (submitJM st m meth vc sc t).1 = SubmitOutcome.validationError ∧
    (submitJM st m meth vc sc t).2 = st ∧
    handleValidate pg result = pg ∧
    (∀ r2 : ValidationResponse, pg.step = PageStep.build →
      ((handleValidate pg r2).step = PageStep.config ↔ r2.valid = true)) := by
  refine ⟨?_, ?_, ?_, ?_⟩
  · unfold submitJM
    rw [h]
    simp
  · unfold submitJM
    rw [h]
    simp
  · unfold handleValidate
    rw [hr]
    simp
  · intro r2 hstep
    unfold handleValidate
    cases hv : r2.valid <;> simp [hstep]

/-- Witness for claim C5: a potassium atom with the cc-pvdz basis set is
rejected and the store and page are unchanged. -/
theorem invalid_submit_creates_no_record_witness :
    validMolecule (Molecule.mk "K" [Atom.mk "K" (0, 0, 0)] 0 1 "cc-pvdz") = false ∧
    (submitJM (JobStore.mk 0 []) (Molecule.mk "K" [Atom.mk "K" (0, 0, 0)] 0 1 "cc-pvdz")
        Method.vqe none none 0).1 = SubmitOutcome.validationError ∧
    (submitJM (JobStore.mk 0 []) (Molecule.mk "K" [Atom.mk "K" (0, 0, 0)] 0 1 "cc-pvdz")
        Method.vqe none none 0).2 = JobStore.mk 0 [] ∧
    handleValidate
        (PageState.mk DEFAULT_MOLECULE Method.vqe DEFAULT_VQE_CONFIG DEFAULT_SQD_CONFIG PageStep.build)
        (ValidationResponse.mk false "K" 1 19 0 [] Method.vqe) =
      PageState.mk DEFAULT_MOLECULE Method.vqe DEFAULT_VQE_CONFIG DEFAULT_SQD_CONFIG PageStep.build :=
  ⟨by decide,
   (invalid_submit_creates_no_record (JobStore.mk 0 [])
      (Molecule.mk "K" [Atom.mk "K" (0, 0, 0)] 0 1 "cc-pvdz") Method.vqe none none 0
      (PageState.mk DEFAULT_MOLECULE Method.vqe DEFAULT_VQE_CONFIG DEFAULT_SQD_CONFIG PageStep.build)
      (ValidationResponse.mk false "K" 1 19 0 [] Method.vqe) (by decide) rfl).1,
   (invalid_submit_creates_no_record (JobStore.mk 0 [])
      (Molecule.mk "K" [Atom.mk "K" (0, 0, 0)] 0 1 "cc-pvdz") Method.vqe none none 0
      (PageState.mk DEFAULT_MOLECULE Method.vqe DEFAULT_VQE_CONFIG DEFAULT_SQD_CONFIG PageStep.build)
      (ValidationResponse.mk false "K" 1 19 0 [] Method.vqe) (by decide) rfl).2.1,
   (invalid_submit_creates_no_record (JobStore.mk 0 [])
      (Molecule.mk "K" [Atom.mk "K" (0, 0, 0)] 0 1 "cc-pvdz") Method.vqe none none 0
      (PageState.mk DEFAULT_MOLECULE Method.vqe DEFAULT_VQE_CONFIG DEFAULT_SQD_CONFIG PageStep.build)
      (ValidationResponse.mk false "K" 1 19 0 [] Method.vqe) (by decide) rfl).2.2.1⟩

/-- An event attempted on a job whose status is terminal leaves the record
untouched. -/
theorem applyEvent_of_terminal (j : JobRecord) (e : JMEvent)
    (h : isTerminal j.status = true) : applyEvent j e = j := by
  unfold applyEvent
  rw [h]
  simp

/-- A whole event trace attempted on a terminal job leaves the record
untouched. -/
theorem runTrace_of_terminal (j : JobRecord) (es : List JMEvent)
    (h : isTerminal j.status = true) : runTrace j es = j := by
  induction es generalizing j with
  | nil => rfl
  | cons e es ih =>
      unfold runTrace at ih ⊢
      simp only [List.foldl_cons]
      rw [applyEvent_of_terminal j e h]
      exact ih j h

/-- Every single event moves the status along an edge of the section 4.4
state machine (or leaves it in place). -/
theorem applyEvent_edge (j : JobRecord) (e : JMEvent) :
    AllowedEdge j.status (applyEvent j e).status := by
  unfold applyEvent cancelJob AllowedEdge
  cases hs : j.status <;> cases e
  all_goals simp [isTerminal, hs]
  all_goals (try split)
  all_goals simp_all

/-- Claim C6: the status only ever moves along the edges of the state
machine (pending to running, pending to cancelled, running to completed,
failed or cancelled); any event attempted from a terminal state is a no-op
rather than an error, and a terminal job stays unchanged across any trace. -/
theorem status_state_machine (j : JobRecord) (e : JMEvent) (es : List JMEvent) :
    (isTerminal j.status = true → applyEvent j e = j) ∧
    AllowedEdge j.status (applyEvent j e).status ∧
    (isTerminal j.status = true → runTrace j es = j) :=
  ⟨applyEvent_of_terminal j e, applyEvent_edge j e, runTrace_of_terminal j es⟩

/-- Witness for claim C6 at a concrete completed job and a late cancel and
late callbacks. -/
theorem status_state_machine_witness :
    isTerminal sampleTerminalJob.status = true ∧
    applyEvent sampleTerminalJob (JMEvent.cancel 7) = sampleTerminalJob ∧
    AllowedEdge sampleTerminalJob.status
      (applyEvent sampleTerminalJob (JMEvent.cancel 7)).status ∧
    runTrace sampleTerminalJob
      [JMEvent.progressCb 10 "late", JMEvent.failCb 9 "late"] = sampleTerminalJob :=
  ⟨rfl,
   (status_state_machine sampleTerminalJob (JMEvent.cancel 7) []).1 rfl,
   (status_state_machine sampleTerminalJob (JMEvent.cancel 7) []).2.1,
   (status_state_machine sampleTerminalJob (JMEvent.cancel 7)
      [JMEvent.progressCb 10 "late", JMEvent.failCb 9 "late"]).2.2 rfl⟩

/-- One event keeps the progress percentage at most 100. -/
theorem applyEvent_progress_le (j : JobRecord) (e : JMEvent)
    (h : j.progress ≤ 100) : (applyEvent j e).progress ≤ 100 := by
  unfold applyEvent cancelJob
  cases e
  all_goals repeat' split
  all_goals simp_all

/-- No event ever decreases the progress percentage. -/
theorem applyEvent_progress_mono (j : JobRecord) (e : JMEvent) :
    j.progress ≤ (applyEvent j e).progress := by
  unfold applyEvent cancelJob
  cases e
  all_goals repeat' split
  all_goals simp_all

/-- A whole trace keeps the progress percentage at most 100. -/
theorem runTrace_progress_le (j : JobRecord) (es : List JMEvent)
    (h : j.progress ≤ 100) : (runTrace j es).progress ≤ 100 := by
  induction es generalizing j with
  | nil => exact h
  | cons e es ih =>
      unfold runTrace at ih ⊢
      simp only [List.foldl_cons]
      exact ih _ (applyEvent_progress_le j e h)

/-- A whole trace never decreases the progress percentage. -/
theorem runTrace_progress_mono (j : JobRecord) (es : List JMEvent) :
    j.progress ≤ (runTrace j es).progress := by
  induction es generalizing j with
  | nil => exact Nat.le_refl _
  | cons e es ih =>
      unfold runTrace at ih ⊢
      simp only [List.foldl_cons]
      exact Nat.le_trans (applyEvent_progress_mono j e) (ih _)

/-- Claim C7: progress is an integer percentage kept between 0 and 100
inclusive (it is a natural number, so 0 is a lower bound by type), and the
progress values observed at any two points of any event trace never decrease
while the status is running. -/
theorem progress_bounded_monotone (j : JobRecord) (es : List JMEvent)
    (hp : j.progress ≤ 100) :
    (runTrace j es).progress ≤ 100 ∧
    j.progress ≤ (runTrace j es).progress ∧
    (j.status = JobStatus.running → (runTrace j es).status = JobStatus.running →
      j.progress ≤ (runTrace j es).progress) :=
  ⟨runTrace_progress_le j es hp, runTrace_progress_mono j es,
   fun _ _ => runTrace_progress_mono j es⟩

/-- Witness for claim C7 at a concrete running job receiving a progress
callback. -/
theorem progress_bounded_monotone_witness :
    sampleRunningJob.progress ≤ 100 ∧
    (runTrace sampleRunningJob [JMEvent.progressCb 60 "optimizing"]).progress ≤ 100 ∧
    sampleRunningJob.progress ≤
      (runTrace sampleRunningJob [JMEvent.progressCb 60 "optimizing"]).progress ∧
    (sampleRunningJob.status = JobStatus.running →
      (runTrace sampleRunningJob [JMEvent.progressCb 60 "optimizing"]).status = JobStatus.running →
      sampleRunningJob.progress ≤
        (runTrace sampleRunningJob [JMEvent.progressCb 60 "optimizing"]).progress) :=
  ⟨by decide,
   (progress_bounded_monotone sampleRunningJob [JMEvent.progressCb 60 "optimizing"] (by decide)).1,
   (progress_bounded_monotone sampleRunningJob [JMEvent.progressCb 60 "optimizing"] (by decide)).2.1,
   (progress_bounded_monotone sampleRunningJob [JMEvent.progressCb 60 "optimizing"] (by decide)).2.2⟩

/-- Indices strictly above i are never filtered out: filtering an enumFrom
that starts above i keeps everything. -/
theorem filter_enumFrom_of_lt (l : List Atom) (n i : Nat) (h : i < n) :
    (List.enumFrom n l).filter (fun p => p.1 != i) = List.enumFrom n l := by
  induction l generalizing n with
  | nil => rfl
  | cons a l ih =>
      have hne : ((n, a).1 != i) = true := by
        simp only [bne_iff_ne]
        omega
      simp only [List.enumFrom, List.filter_cons, hne, if_true]
      rw [ih (n + 1) (Nat.lt_succ_of_lt h)]

/-- Filtering out one index from an enumerated list drops at most one
element. -/
theorem length_filter_enumFrom (l : List Atom) (n i : Nat) :
    l.length - 1 ≤ ((List.enumFrom n l).filter (fun p => p.1 != i)).length := by
  induction l generalizing n with
  | nil => simp
  | cons a l ih =>
      by_cases hni : n = i
      · subst hni
        have hkeep := filter_enumFrom_of_lt l (n + 1) n (Nat.lt_succ_self n)
        have hdrop : ((n, a).1 != n) = false := by simp
        simp only [List.enumFrom, List.filter_cons, hdrop, if_false, hkeep]
        simp
      · have hne : ((n, a).1 != i) = true := by
          simp only [bne_iff_ne]
          exact hni
        have hrec := ih (n + 1)
        simp only [List.enumFrom, List.filter_cons, hne, if_true, List.length_cons] at hrec ⊢
        omega

/-- Removing an atom from a molecule drops at most one atom. -/
theorem handleRemoveAtom_length (m : Molecule) (i : Nat) :
    m.atoms.length - 1 ≤ (handleRemoveAtom m i).atoms.length := by
  unfold handleRemoveAtom List.enum
  simpa using length_filter_enumFrom m.atoms 0 i

/-- No sequence of enabled builder actions empties the atoms list. -/
theorem applyOps_ne_nil (m : Molecule) (ops : List BuilderOp) (h : m.atoms ≠ []) :
    (applyOps m ops).atoms ≠ [] := by
  induction ops generalizing m with
  | nil => exact h
  | cons op ops ih =>
      unfold applyOps at ih ⊢
      simp only [List.foldl_cons]
      apply ih
      cases op with
      | addAtom => simp [applyOp, handleAddAtom]
      | removeAtom i =>
          simp only [applyOp]
          by_cases hc : canRemove m
          · rw [if_pos hc]
            have hlen : 1 < m.atoms.length := by
              simpa [canRemove] using hc
            have hge := handleRemoveAtom_length m i
            intro hnil
            rw [hnil] at hge
            simp at hge
            omega
          · rw [if_neg hc]
            exact h

/-- Claim C10: the molecule built through MoleculeBuilder always keeps at
least one atom: handleAddAtom grows the atoms list by one, canRemove is
false when the list has exactly one atom (so the remove buttons are
disabled), and no sequence of add/remove actions through the UI starting
from a non-empty atoms list yields an empty one. -/
theorem molecule_builder_nonempty (m : Molecule) (ops : List BuilderOp)
    (h : m.atoms ≠ []) :
    (handleAddAtom m).atoms.length = m.atoms.length + 1 ∧
    (m.atoms.length = 1 → canRemove m = false) ∧
    (applyOps m ops).atoms ≠ [] := by
  refine ⟨by simp [handleAddAtom], ?_, applyOps_ne_nil m ops h⟩
  intro h1
  simp [canRemove, h1]

/-- Witness for claim C10 at the default two-atom molecule with two remove
attempts and one add. -/
theorem molecule_builder_nonempty_witness :
    DEFAULT_MOLECULE.atoms ≠ [] ∧
    (handleAddAtom DEFAULT_MOLECULE).atoms.length = DEFAULT_MOLECULE.atoms.length + 1 ∧
    (applyOps DEFAULT_MOLECULE
      [BuilderOp.removeAtom 0, BuilderOp.removeAtom 0, BuilderOp.addAtom]).atoms ≠ [] :=
  ⟨by simp [DEFAULT_MOLECULE],
   (molecule_builder_nonempty DEFAULT_MOLECULE
      [BuilderOp.removeAtom 0, BuilderOp.removeAtom 0, BuilderOp.addAtom]
      (by simp [DEFAULT_MOLECULE])).1,
   (molecule_builder_nonempty DEFAULT_MOLECULE
      [BuilderOp.removeAtom 0, BuilderOp.removeAtom 0, BuilderOp.addAtom]
      (by simp [DEFAULT_MOLECULE])).2.2⟩

end Spec2Proof
